import Mathlib

/-!
Verification of the prompt-context assembly and streaming response pipeline
of the DeepSeek chat adapter (src/deepseek_llm.py, src/interactive_chat.py).

The Python source is shallowly embedded: pure helpers become Lean functions,
the mutable `DeepSeekInteractiveChat` object becomes explicit state passing
over `ConversationState`, HTTP traffic becomes an explicit response value,
and Python's `json.loads` becomes an abstract `decode : String → Option Json`
parameter (`none` models a `json.JSONDecodeError`).
-/

namespace Buffett

/-- Json values as produced by Python's `json.loads`: null, booleans, numbers,
strings, arrays and objects (association lists with distinct keys). Numbers
are modelled as integers; no claim inspects numeric payloads. -/
inductive Json where
  | null
  | bool (b : Bool)
  | num (n : Int)
  | str (s : String)
  | arr (elems : List Json)
  | obj (fields : List (String × Json))

/-- Field lookup in a JSON object body, first match wins (JSON objects from
`json.loads` have unique keys, so this matches Python `dict` indexing). -/
def lookupField : List (String × Json) → String → Option Json
  | [], _ => none
  | (k, v) :: rest, key => if k = key then some v else lookupField rest key

/-- Json.lookup models `d[key]` / `key in d` on a decoded JSON value: a result
for objects holding the key, `none` otherwise. -/
def Json.lookup : Json → String → Option Json
  | .obj fields, key => lookupField fields key
  | _, _ => none

/-- ChatMessage from src/interactive_chat.py: role ("user", "assistant" or
"system"), content, and a creation timestamp (`time.time()` is passed in
explicitly as a `Nat`; no claim does arithmetic on it). -/
structure ChatMessage where
  role : String
  content : String
  timestamp : Nat
deriving DecidableEq

/-- FewShotExample from src/interactive_chat.py. -/
structure FewShotExample where
  user_input : String
  assistant_response : String
  description : String
deriving DecidableEq

/-- ConversationState gathers the mutable fields of `DeepSeekInteractiveChat`
that the claims are about: the system prompt, the few-shot example list and
the conversation history.  (`llm` and the constant `max_history_length = 20`
are omitted; the constant appears as `maxHistoryLength` below.) -/
structure ConversationState where
  system_prompt : String
  few_shot_examples : List FewShotExample
  conversation_history : List ChatMessage
deriving DecidableEq

/-- maxHistoryLength is `self.max_history_length = 20` (保留最近20条对话). -/
def maxHistoryLength : Nat := 20

/-- lastN models the Python tail slice `l[-n:]` (for `n > 0`): the suffix of
the most recent `n` elements, or the whole list when it is shorter. -/
def lastN (n : Nat) (l : List α) : List α := l.drop (l.length - n)

/-- mkMessage is the `ChatMessage(role=role, content=content)` constructor
call with the current time `ts`. -/
def mkMessage (role content : String) (ts : Nat) : ChatMessage :=
  { role := role, content := content, timestamp := ts }

/-- add_to_history is `DeepSeekInteractiveChat._add_to_history`: append the new
message, then trim to the most recent `max_history_length` entries whenever
the bound is exceeded (`self.conversation_history[-20:]`). -/
def add_to_history (hist : List ChatMessage) (role content : String) (ts : Nat) :
    List ChatMessage :=
  let h := hist ++ [mkMessage role content ts]
  if h.length > maxHistoryLength then lastN maxHistoryLength h else h

/-- add_few_shot_example is `DeepSeekInteractiveChat.add_few_shot_example`: when
3 or more examples are present, `pop(0)` drops the oldest before appending. -/
def add_few_shot_example (exs : List FewShotExample) (e : FewShotExample) :
    List FewShotExample :=
  if exs.length ≥ 3 then exs.tail ++ [e] else exs ++ [e]

/-- joinLines models Python `"\n".join(parts)`. -/
def joinLines : List String → String
  | [] => ""
  | [x] => x
  | x :: y :: xs => x ++ "\n" ++ joinLines (y :: xs)

/-- renderFewShots renders the numbered few-shot section of
`_build_prompt_with_context` (`for i, example in enumerate(..., 1)`). -/
def renderFewShots : Nat → List FewShotExample → List String
  | _, [] => []
  | i, ex :: rest =>
    ("示例" ++ toString i ++ "：") ::
    ("用户：" ++ ex.user_input) ::
    ("助手：" ++ ex.assistant_response ++ "\n") ::
    renderFewShots (i + 1) rest

/-- renderHistoryMsg renders one history message inside
`_build_prompt_with_context`: a labeled line for role "user" or "assistant",
and nothing for any other role (the `if`/`elif` chain has no `else`). -/
def renderHistoryMsg (m : ChatMessage) : List String :=
  if m.role = "user" then ["用户：" ++ m.content]
  else if m.role = "assistant" then ["助手：" ++ m.content]
  else []

/-- renderHistory renders a run of history messages in order. -/
def renderHistory : List ChatMessage → List String
  | [] => []
  | m :: ms => renderHistoryMsg m ++ renderHistory ms

/-- buildPromptParts is the `context_parts` list built by
`DeepSeekInteractiveChat._build_prompt_with_context`: system prompt block,
optional few-shot section, optional history section (last 6 messages,
`self.conversation_history[-6:]`), then the new user turn with an open
assistant label. -/
def buildPromptParts (sys : String) (fs : List FewShotExample)
    (hist : List ChatMessage) (input : String) : List String :=
  ["系统提示：\n" ++ sys ++ "\n"]
  ++ (if fs = [] then []
      else "以下是一些对话示例，请参考这种回答风格：\n" :: renderFewShots 1 fs)
  ++ (if hist = [] then []
      else ("对话历史：" :: renderHistory (lastN 6 hist)) ++ [""])
  ++ ["现在请回答以下问题：\n用户：" ++ input ++ "\n助手："]

/-- build_prompt_with_context is `_build_prompt_with_context`:
`"\n".join(context_parts)`. -/
def build_prompt_with_context (sys : String) (fs : List FewShotExample)
    (hist : List ChatMessage) (input : String) : String :=
  joinLines (buildPromptParts sys fs hist input)

/-- pyStartsWith models Python `line.startswith(p)`: a character-wise prefix
test (extensionally the same test as Lean's byte-based `String.startsWith`). -/
def pyStartsWith (s p : String) : Bool := p.data.isPrefixOf s.data

/-- pyStrip models Python `s.strip()`: whitespace removed from both ends
(extensionally `String.trim` on the whitespace the claims exercise). -/
def pyStrip (s : String) : String :=
  ⟨((s.data.dropWhile Char.isWhitespace).reverse.dropWhile
      Char.isWhitespace).reverse⟩

/-- extractChunkChat is the per-line extraction step of
`DeepSeekInteractiveChat.chat_stream`: when `choices` is a non-empty array,
take `choices[0].get('delta', {})` and, when the delta holds a `content`
key, yield that content (which may be the empty string).  Content values,
being text deltas of the API, are modelled as JSON strings.  A line whose
first choice is not an object is a malformed-server corner that would abort
the Python generator; no claim exercises it and it is folded into `none`. -/
def extractChunkChat (j : Json) : Option String :=
  match j.lookup "choices" with
  | some (Json.arr (c :: _)) =>
    match c.lookup "delta" with
    | some d =>
      match d.lookup "content" with
      | some (Json.str s) => some s
      | _ => none
    | none => none
  | _ => none

/-- extractChunkLLM is the per-line extraction step of `DeepSeekLLM._stream`:
`content = delta.get("content", "")` followed by the truthiness guard
`if content:` — the empty string is never yielded. -/
def extractChunkLLM (j : Json) : Option String :=
  match j.lookup "choices" with
  | some (Json.arr (c :: _)) =>
    match c.lookup "delta" with
    | some d =>
      match d.lookup "content" with
      | some (Json.str s) => if s = "" then none else some s
      | _ => none
    | none => none
  | _ => none

/-- chat_stream_chunks is the SSE consumption loop of
`DeepSeekInteractiveChat.chat_stream` over the decoded body lines: empty
lines are skipped (`if line:`), lines without the `data: ` marker are
skipped, the `[DONE]` sentinel breaks out of the loop, a line that fails
to decode (`json.JSONDecodeError`, here `decode dataStr = none`) is skipped
non-fatally, and an extracted content delta is yielded.  The returned list
is the sequence of yielded fragments in order. -/
def chat_stream_chunks (decode : String → Option Json) : List String → List String
  | [] => []
  | line :: rest =>
    if line = "" then chat_stream_chunks decode rest
    else if pyStartsWith line "data: " then
      if pyStrip (line.drop 6) = "[DONE]" then []
      else
        match decode (line.drop 6) with
        | none => chat_stream_chunks decode rest
        | some j =>
          match extractChunkChat j with
          | some c => c :: chat_stream_chunks decode rest
          | none => chat_stream_chunks decode rest
    else chat_stream_chunks decode rest

/-- streamChunksLLM is the SSE consumption loop of `DeepSeekLLM._stream`,
identical line handling to `chat_stream_chunks` but with the `_stream`
extraction step (empty deltas are not yielded). -/
def streamChunksLLM (decode : String → Option Json) : List String → List String
  | [] => []
  | line :: rest =>
    if line = "" then streamChunksLLM decode rest
    else if pyStartsWith line "data: " then
      if pyStrip (line.drop 6) = "[DONE]" then []
      else
        match decode (line.drop 6) with
        | none => streamChunksLLM decode rest
        | some j =>
          match extractChunkLLM j with
          | some c => c :: streamChunksLLM decode rest
          | none => streamChunksLLM decode rest
    else streamChunksLLM decode rest

/-- TransportCause records the underlying failure wrapped by a transport
error: a `requests` connection-level exception, or the HTTP status that made
`response.raise_for_status()` raise. -/
inductive TransportCause where
  | connection (msg : String)
  | httpStatus (code : Nat)
deriving DecidableEq

/-- ApiCause records the failure wrapped by the generic
`RuntimeError("DeepSeek API error: ...")` branch of `_call`: `noChoices` is
the `ValueError("No response from DeepSeek API")` raised when `choices` is
absent or empty (the spec's `EmptyResponse`); `badBody` is a body that
`response.json()` cannot parse; `badShape` is a key/type error while
indexing into a non-conforming `choices` value. -/
inductive ApiCause where
  | noChoices
  | badBody
  | badShape
deriving DecidableEq

/-- LLMError is the error taxonomy of `DeepSeekLLM`: `transport` is the
`RuntimeError("DeepSeek API request failed: ...")` wrapping a
`requests.exceptions.RequestException` (the spec's `TransportError`);
`apiError` is the `RuntimeError("DeepSeek API error: ...")` wrapping any
other exception.  The Python message strings are not reproduced; the
wrapped cause is kept structured instead. -/
inductive LLMError where
  | transport (cause : TransportCause)
  | apiError (cause : ApiCause)
deriving DecidableEq

/-- statusRaises models `response.raise_for_status()`, which raises
`requests.exceptions.HTTPError` exactly for 4xx and 5xx status codes. -/
def statusRaises (status : Nat) : Bool := 400 ≤ status && status < 600

/-- CallResponse is the outcome of the non-streaming HTTP POST: a
connection-level failure, or a response with a status code and a body
(`none` when `response.json()` would fail to parse it). -/
inductive CallResponse where
  | connError (msg : String)
  | ok (status : Nat) (body : Option Json)

/-- StreamResponse is the outcome of the streaming HTTP POST: a
connection-level failure, or a response with a status code and its decoded
SSE body lines (`response.iter_lines()`). -/
inductive StreamResponse where
  | connError (msg : String)
  | ok (status : Nat) (lines : List String)

/-- DeepSeekLLM_call is `DeepSeekLLM._call` from src/deepseek_llm.py, as a
function of the HTTP outcome: connection failures and raise-for-status
failures become transport errors; a successful response is parsed with
`result["choices"][0]["message"]["content"]`, raising the
no-response `ValueError` when `choices` is absent or empty.  A non-string
content value is returned unchecked by Python; the claims only exercise
string contents, and other shapes are folded into `badShape`. -/
def DeepSeekLLM_call (resp : CallResponse) : Except LLMError String :=
  match resp with
  | .connError msg => .error (.transport (.connection msg))
  | .ok status body =>
    if statusRaises status then .error (.transport (.httpStatus status))
    else
      match body with
      | none => .error (.apiError .badBody)
      | some j =>
        match j.lookup "choices" with
        | some (Json.arr (c :: _)) =>
          match c.lookup "message" with
          | some m =>
            match m.lookup "content" with
            | some (Json.str s) => .ok s
            | _ => .error (.apiError .badShape)
          | none => .error (.apiError .badShape)
        | some (Json.arr []) => .error (.apiError .noChoices)
        | none => .error (.apiError .noChoices)
        | some _ => .error (.apiError .badShape)

/-- DeepSeekLLM_stream is `DeepSeekLLM._stream` as a function of the HTTP
outcome: transport failures raise as in `_call`; otherwise the SSE lines
are consumed and the yielded fragments returned in order (mid-stream
connection failures are not modelled; no claim exercises them). -/
def DeepSeekLLM_stream (decode : String → Option Json) (resp : StreamResponse) :
    Except LLMError (List String) :=
  match resp with
  | .connError msg => .error (.transport (.connection msg))
  | .ok status lines =>
    if statusRaises status then .error (.transport (.httpStatus status))
    else .ok (streamChunksLLM decode lines)

/-- chat_once is `DeepSeekInteractiveChat.chat_once`: on success the user
turn and the assistant response are appended to the history (in that
order) and the response returned; on any exception the history is left
untouched (the Python code formats the exception into the returned
`对话出错` string; the structured error is kept instead, since no claim
inspects the formatted text). -/
def chat_once (st : ConversationState) (resp : CallResponse) (input : String)
    (ts : Nat) : ConversationState × Except LLMError String :=
  match DeepSeekLLM_call resp with
  | .ok response =>
    let h1 := add_to_history st.conversation_history "user" input ts
    let h2 := add_to_history h1 "assistant" response ts
    ({ st with conversation_history := h2 }, .ok response)
  | .error e => (st, .error e)

/-- chat_stream is `DeepSeekInteractiveChat.chat_stream`: it performs its own
streaming POST, consumes the SSE lines with `chat_stream_chunks`
(accumulating `full_response`), and appends the user turn and the
accumulated assistant message to the history only after the loop finishes;
on any exception the history is untouched and a single error message is
yielded instead (kept structured here, as in `chat_once`). -/
def chat_stream (st : ConversationState) (decode : String → Option Json)
    (resp : StreamResponse) (input : String) (ts : Nat) :
    ConversationState × Except LLMError (List String) :=
  match resp with
  | .connError msg => (st, .error (.transport (.connection msg)))
  | .ok status lines =>
    if statusRaises status then (st, .error (.transport (.httpStatus status)))
    else
      let chunks := chat_stream_chunks decode lines
      let full := String.join chunks
      let h1 := add_to_history st.conversation_history "user" input ts
      let h2 := add_to_history h1 "assistant" full ts
      ({ st with conversation_history := h2 }, .ok chunks)

/-- SavedExample is one record of the `few_shot_examples` array in the
persisted session file; `description` may be absent
(`ex.get("description", "")`). -/
structure SavedExample where
  user_input : String
  assistant_response : String
  description : Option String
deriving DecidableEq

/-- SavedMessage is one record of the `conversation_history` array in the
persisted session file; `timestamp` may be absent
(`msg.get("timestamp", time.time())`). -/
structure SavedMessage where
  role : String
  content : String
  timestamp : Option Nat
deriving DecidableEq

/-- SavedConversation is the structure of the persisted session file written
by `save_conversation`; each top-level key may be absent when the file was
produced elsewhere (`load_conversation` checks `in conversation_data`). -/
structure SavedConversation where
  system_prompt : Option String
  few_shot_examples : Option (List SavedExample)
  conversation_history : Option (List SavedMessage)
deriving DecidableEq

/-- save_conversation is `DeepSeekInteractiveChat.save_conversation`
restricted to the data it serializes: every field is written, with all
record keys present. -/
def save_conversation (st : ConversationState) : SavedConversation where
  system_prompt := some st.system_prompt
  few_shot_examples := some (st.few_shot_examples.map fun e =>
    { user_input := e.user_input
      assistant_response := e.assistant_response
      description := some e.description })
  conversation_history := some (st.conversation_history.map fun m =>
    { role := m.role, content := m.content, timestamp := some m.timestamp })

/-- restoreExample rebuilds one `FewShotExample` in `load_conversation`,
defaulting a missing description to "". -/
def restoreExample (r : SavedExample) : FewShotExample :=
  { user_input := r.user_input
    assistant_response := r.assistant_response
    description := r.description.getD "" }

/-- restoreMessage rebuilds one `ChatMessage` in `load_conversation`,
substituting the current time `now` for a missing timestamp. -/
def restoreMessage (now : Nat) (r : SavedMessage) : ChatMessage :=
  { role := r.role, content := r.content, timestamp := r.timestamp.getD now }

/-- load_conversation is `DeepSeekInteractiveChat.load_conversation`: each of
the three fields present in the file replaces the corresponding field of
the state wholesale (note: no length cap is applied to the restored
few-shot list or history). -/
def load_conversation (saved : SavedConversation) (now : Nat)
    (st : ConversationState) : ConversationState :=
  let st1 := match saved.system_prompt with
    | some s => { st with system_prompt := s }
    | none => st
  let st2 := match saved.few_shot_examples with
    | some rs => { st1 with few_shot_examples := rs.map restoreExample }
    | none => st1
  match saved.conversation_history with
  | some ms => { st2 with conversation_history := ms.map (restoreMessage now) }
  | none => st2

/-! Spec-side prompt blocks.  These four definitions follow the words of the
spec ("system instruction block first, then the few-shot example section,
then the rendered conversation history, then the new user input followed by
an open assistant label"); the refinement theorem for C1 compares their
concatenation with `build_prompt_with_context`, which is translated from the
source. -/

/-- systemBlock is the system instruction block that the spec places
first. -/
def systemBlock (sys : String) : String := "系统提示：\n" ++ sys ++ "\n"

/-- fewShotBlock is the few-shot example section (with its separating
newline), empty when there are no examples. -/
def fewShotBlock (fs : List FewShotExample) : String :=
  if fs = [] then ""
  else "\n" ++ joinLines ("以下是一些对话示例，请参考这种回答风格：\n" :: renderFewShots 1 fs)

/-- historyBlock is the rendered conversation history section (with its
separating newline), empty when the history is empty. -/
def historyBlock (hist : List ChatMessage) : String :=
  if hist = [] then ""
  else "\n" ++ joinLines (("对话历史：" :: renderHistory (lastN 6 hist)) ++ [""])

/-- newUserBlock is the closing instruction, the new user input and the open
assistant label that end the prompt. -/
def newUserBlock (input : String) : String :=
  "\n" ++ ("现在请回答以下问题：\n用户：" ++ input ++ "\n助手：")

/-! Concrete values used by witnesses and counterexamples. -/

/-- deltaJson is the decoded shape of one SSE delta fragment:
`{"choices": [{"delta": {"content": c}}]}`. -/
def deltaJson (c : String) : Json :=
  .obj [("choices", .arr [.obj [("delta", .obj [("content", .str c)])]])]

/-- okBody is a well-formed non-streaming response body:
`{"choices": [{"message": {"content": "hi"}}]}`. -/
def okBody : Json :=
  .obj [("choices", .arr [.obj [("message", .obj [("content", .str "hi")])]])]

/-- emptyState is a conversation state with empty prompt, examples and
history. -/
def emptyState : ConversationState :=
  { system_prompt := "", few_shot_examples := [], conversation_history := [] }

/-- decodeTwoDeltas is a concrete stand-in for `json.loads` that decodes the
payloads "j1" and "j2" to delta fragments "A" and "B" and fails on
everything else. -/
def decodeTwoDeltas : String → Option Json := fun s =>
  if s = "j1" then some (deltaJson "A")
  else if s = "j2" then some (deltaJson "B")
  else none

/-- decodeEmptyDelta is a concrete stand-in for `json.loads` that decodes
the payload "e" to a delta fragment whose content is the empty string. -/
def decodeEmptyDelta : String → Option Json := fun s =>
  if s = "e" then some (deltaJson "") else none

/-- decodeXDelta is a concrete stand-in for `json.loads` that decodes the
payload "j" to a delta fragment with content "x". -/
def decodeXDelta : String → Option Json := fun s =>
  if s = "j" then some (deltaJson "x") else none

/-- fsEx numbers four distinct concrete few-shot examples. -/
def fsEx (n : Nat) : FewShotExample :=
  { user_input := "u" ++ toString n
    assistant_response := "a" ++ toString n
    description := "d" ++ toString n }

/-- fourSavedExamples is a persisted session fragment holding four few-shot
example records. -/
def fourSavedExamples : List SavedExample :=
  [ { user_input := "u1", assistant_response := "a1", description := some "d1" }
  , { user_input := "u2", assistant_response := "a2", description := some "d2" }
  , { user_input := "u3", assistant_response := "a3", description := some "d3" }
  , { user_input := "u4", assistant_response := "a4", description := some "d4" } ]

/-- sixMessages is a six-entry alternating user/assistant history. -/
def sixMessages : List ChatMessage :=
  [ mkMessage "user" "h1" 1, mkMessage "assistant" "h2" 2
  , mkMessage "user" "h3" 3, mkMessage "assistant" "h4" 4
  , mkMessage "user" "h5" 5, mkMessage "assistant" "h6" 6 ]

/-! Helper lemmas about strings and the SSE line shape. -/

/-- dataLine_ne_empty: a line carrying the `data: ` marker is never the
empty string. -/
theorem dataLine_ne_empty (s : String) : ("data: " ++ s) ≠ "" := by
  intro h
  have h2 := congrArg String.length h
  rw [String.length_append] at h2
  have h6 : "data: ".length = 6 := by decide
  have h0 : "".length = 0 := by decide
  omega

/-- pyStartsWith_self_append: prepending a marker makes the prefix test
succeed. -/
theorem pyStartsWith_self_append (p s : String) :
    pyStartsWith (p ++ s) p = true := by
  simp [pyStartsWith, List.isPrefixOf_iff_prefix, String.data_append]

/-- drop_dataMarker: stripping the six-character `data: ` marker recovers
the payload (`line[6:]`). -/
theorem drop_dataMarker (s : String) : ("data: " ++ s).drop 6 = s := by
  apply String.ext
  rw [String.data_drop, String.data_append]
  exact List.drop_left' (by decide)

/-- joinLines_append: joining a concatenation of two non-empty part lists
splits at a newline. -/
theorem joinLines_append : ∀ (xs ys : List String), xs ≠ [] → ys ≠ [] →
    joinLines (xs ++ ys) = joinLines xs ++ "\n" ++ joinLines ys
  | [], _, hx, _ => absurd rfl hx
  | [_], [], _, hy => absurd rfl hy
  | [x], y :: ys, _, _ => rfl
  | x :: x' :: xs, ys, _, hy => by
    have ih := joinLines_append (x' :: xs) ys (by simp) hy
    show x ++ "\n" ++ joinLines ((x' :: xs) ++ ys) = _
    rw [ih]
    simp [joinLines, String.append_assoc]

/-- joinLines_four: the join of a four-segment part list, with the middle
two segments possibly empty, splits into four blocks. -/
theorem joinLines_four (A D : String) (B C : List String) :
    joinLines ([A] ++ B ++ C ++ [D]) =
      A ++ (if B = [] then "" else "\n" ++ joinLines B)
        ++ (if C = [] then "" else "\n" ++ joinLines C) ++ ("\n" ++ D) := by
  by_cases hB : B = [] <;> by_cases hC : C = [] <;>
    simp only [hB, hC, if_pos, if_neg, List.nil_append, List.append_nil,
      String.append_empty, reduceIte]
  · simp [joinLines, String.append_assoc]
  · rw [List.append_assoc,
      joinLines_append [A] (C ++ [D]) (by simp) (by simp),
      joinLines_append C [D] hC (by simp)]
    simp [joinLines, String.append_assoc]
  · rw [List.append_assoc,
      joinLines_append [A] (B ++ [D]) (by simp) (by simp),
      joinLines_append B [D] hB (by simp)]
    simp [joinLines, String.append_assoc]
  · rw [List.append_assoc, List.append_assoc,
      joinLines_append [A] (B ++ (C ++ [D])) (by simp) (by simp [hB]),
      joinLines_append B (C ++ [D]) hB (by simp),
      joinLines_append C [D] hC (by simp)]
    simp [joinLines, String.append_assoc]

/-- Claim C1: for every system prompt, few-shot example list, history and
new user input, the prompt built by `_build_prompt_with_context` is exactly
the system instruction block, followed by the few-shot example section,
followed by the rendered conversation history, followed by the new user
input with an open assistant label, in that order. -/
theorem buildPrompt_block_order (sys : String) (fs : List FewShotExample)
    (hist : List ChatMessage) (input : String) :
    build_prompt_with_context sys fs hist input =
      systemBlock sys ++ fewShotBlock fs ++ historyBlock hist ++ newUserBlock input := by
  rw [build_prompt_with_context, buildPromptParts, joinLines_four,
    systemBlock, fewShotBlock, historyBlock, newUserBlock]
  by_cases hfs : fs = [] <;> by_cases hh : hist = [] <;>
    simp [hfs, hh]

/-- chatStreamChunks_emit: a data line that decodes to a fragment with an
extractable content delta yields that delta. -/
theorem chatStreamChunks_emit (decode : String → Option Json) (s c : String)
    (j : Json) (rest : List String) (ht : pyStrip s ≠ "[DONE]")
    (hd : decode s = some j) (he : extractChunkChat j = some c) :
    chat_stream_chunks decode (("data: " ++ s) :: rest) =
      c :: chat_stream_chunks decode rest := by
  rw [chat_stream_chunks, if_neg (dataLine_ne_empty s),
    if_pos (pyStartsWith_self_append "data: " s)]
  simp only [drop_dataMarker, if_neg ht, hd, he]

/-- chatStreamChunks_skip: a data line that fails to decode is skipped. -/
theorem chatStreamChunks_skip (decode : String → Option Json) (s : String)
    (rest : List String) (ht : pyStrip s ≠ "[DONE]") (hd : decode s = none) :
    chat_stream_chunks decode (("data: " ++ s) :: rest) =
      chat_stream_chunks decode rest := by
  rw [chat_stream_chunks, if_neg (dataLine_ne_empty s),
    if_pos (pyStartsWith_self_append "data: " s)]
  simp only [drop_dataMarker, if_neg ht, hd]

/-- chatStreamChunks_done: the `[DONE]` sentinel stops consumption; no later
line contributes. -/
theorem chatStreamChunks_done (decode : String → Option Json)
    (rest : List String) :
    chat_stream_chunks decode ("data: [DONE]" :: rest) = [] := by
  have h : ("data: [DONE]" : String) = "data: " ++ "[DONE]" := rfl
  rw [h, chat_stream_chunks, if_neg (dataLine_ne_empty "[DONE]"),
    if_pos (pyStartsWith_self_append "data: " "[DONE]")]
  simp only [drop_dataMarker]
  rw [if_pos (by decide)]

/-- streamChunksLLM_emit: the `_stream` loop yields an extractable
(non-empty) content delta. -/
theorem streamChunksLLM_emit (decode : String → Option Json) (s c : String)
    (j : Json) (rest : List String) (ht : pyStrip s ≠ "[DONE]")
    (hd : decode s = some j) (he : extractChunkLLM j = some c) :
    streamChunksLLM decode (("data: " ++ s) :: rest) =
      c :: streamChunksLLM decode rest := by
  rw [streamChunksLLM, if_neg (dataLine_ne_empty s),
    if_pos (pyStartsWith_self_append "data: " s)]
  simp only [drop_dataMarker, if_neg ht, hd, he]

/-- streamChunksLLM_skip: the `_stream` loop skips a line that fails to
decode. -/
theorem streamChunksLLM_skip (decode : String → Option Json) (s : String)
    (rest : List String) (ht : pyStrip s ≠ "[DONE]") (hd : decode s = none) :
    streamChunksLLM decode (("data: " ++ s) :: rest) =
      streamChunksLLM decode rest := by
  rw [streamChunksLLM, if_neg (dataLine_ne_empty s),
    if_pos (pyStartsWith_self_append "data: " s)]
  simp only [drop_dataMarker, if_neg ht, hd]

/-- streamChunksLLM_done: the `_stream` loop stops at the `[DONE]`
sentinel. -/
theorem streamChunksLLM_done (decode : String → Option Json)
    (rest : List String) :
    streamChunksLLM decode ("data: [DONE]" :: rest) = [] := by
  have h : ("data: [DONE]" : String) = "data: " ++ "[DONE]" := rfl
  rw [h, streamChunksLLM, if_neg (dataLine_ne_empty "[DONE]"),
    if_pos (pyStartsWith_self_append "data: " "[DONE]")]
  simp only [drop_dataMarker]
  rw [if_pos (by decide)]

/-- extractChunkChat_deltaJson: the chat loop extracts the content of a
delta fragment, whatever it is. -/
theorem extractChunkChat_deltaJson (c : String) :
    extractChunkChat (deltaJson c) = some c := rfl

/-- extractChunkLLM_ne_empty: the `_stream` extraction step never produces
the empty string. -/
theorem extractChunkLLM_ne_empty (j : Json) (c : String)
    (h : extractChunkLLM j = some c) : c ≠ "" := by
  unfold extractChunkLLM at h
  repeat' split at h
  all_goals simp_all

/-- Claim C3: after every `_add_to_history` append the history holds at most
20 messages — exactly `min (previous length + 1) 20` — and what is kept is a
suffix of the appended sequence: the most recent messages, in their original
order, with the new message last. -/
theorem add_to_history_bounded (hist : List ChatMessage) (role content : String)
    (ts : Nat) :
    (add_to_history hist role content ts).length ≤ 20 ∧
    (add_to_history hist role content ts).length = min (hist.length + 1) 20 ∧
    add_to_history hist role content ts <:+ hist ++ [mkMessage role content ts] := by
  unfold add_to_history maxHistoryLength lastN
  by_cases h : (hist ++ [mkMessage role content ts]).length > 20
  · rw [if_pos h]
    simp only [List.length_drop, List.length_append, List.length_cons,
      List.length_nil] at h ⊢
    refine ⟨by omega, by omega, List.drop_suffix _ _⟩
  · rw [if_neg h]
    simp only [List.length_append, List.length_cons, List.length_nil] at h ⊢
    exact ⟨by omega, by omega, List.suffix_refl _⟩

/-- Claim C2 (confirmed as stated): for every SSE line sequence whose data
lines decode to delta fragments "A" and "B" followed by the `[DONE]`
sentinel — whatever lines follow the sentinel — both streaming consumers
emit exactly the fragments "A" then "B" in that order and stop at the
sentinel, and `chat_stream` appends the user turn and then an assistant
message equal to the concatenation "AB" to the history. -/
theorem streaming_emits_in_order (decode : String → Option Json)
    (s1 s2 : String) (rest : List String) (st : ConversationState)
    (input : String) (ts : Nat)
    (h1 : decode s1 = some (deltaJson "A"))
    (h2 : decode s2 = some (deltaJson "B"))
    (t1 : pyStrip s1 ≠ "[DONE]") (t2 : pyStrip s2 ≠ "[DONE]") :
    chat_stream_chunks decode
        (("data: " ++ s1) :: ("data: " ++ s2) :: "data: [DONE]" :: rest) =
      ["A", "B"] ∧
    DeepSeekLLM_stream decode
        (.ok 200 (("data: " ++ s1) :: ("data: " ++ s2) :: "data: [DONE]" :: rest)) =
      .ok ["A", "B"] ∧
    chat_stream st decode
        (.ok 200 (("data: " ++ s1) :: ("data: " ++ s2) :: "data: [DONE]" :: rest))
        input ts =
      ({ st with conversation_history :=
          (add_to_history (add_to_history st.conversation_history "user" input ts)
            "assistant" "AB" ts) }, .ok ["A", "B"]) := by
  have hchat : chat_stream_chunks decode
      (("data: " ++ s1) :: ("data: " ++ s2) :: "data: [DONE]" :: rest) =
      ["A", "B"] := by
    rw [chatStreamChunks_emit decode s1 "A" _ _ t1 h1 (extractChunkChat_deltaJson "A"),
      chatStreamChunks_emit decode s2 "B" _ _ t2 h2 (extractChunkChat_deltaJson "B"),
      chatStreamChunks_done]
  have hllm : streamChunksLLM decode
      (("data: " ++ s1) :: ("data: " ++ s2) :: "data: [DONE]" :: rest) =
      ["A", "B"] := by
    rw [streamChunksLLM_emit decode s1 "A" _ _ t1 h1 rfl,
      streamChunksLLM_emit decode s2 "B" _ _ t2 h2 rfl,
      streamChunksLLM_done]
  refine ⟨hchat, ?_, ?_⟩
  · rw [DeepSeekLLM_stream]
    rw [if_neg (by decide)]
    rw [hllm]
  · rw [chat_stream]
    rw [if_neg (by decide)]
    rw [hchat]
    rfl

/-- Witness for C2: a concrete three-line event sequence with payloads "j1"
and "j2" under `decodeTwoDeltas` emits ["A", "B"] and records the assistant
message "AB". -/
theorem streaming_emits_in_order_witness :
    chat_stream_chunks decodeTwoDeltas
        ["data: j1", "data: j2", "data: [DONE]"] = ["A", "B"] ∧
    chat_stream emptyState decodeTwoDeltas
        (.ok 200 ["data: j1", "data: j2", "data: [DONE]"]) "hello" 7 =
      ({ emptyState with conversation_history :=
          (add_to_history (add_to_history emptyState.conversation_history
            "user" "hello" 7) "assistant" "AB" 7) }, .ok ["A", "B"]) := by
  have e1 : ("data: j1" : String) = "data: " ++ "j1" := rfl
  have e2 : ("data: j2" : String) = "data: " ++ "j2" := rfl
  have h := streaming_emits_in_order decodeTwoDeltas "j1" "j2" [] emptyState
    "hello" 7 rfl rfl (by decide) (by decide)
  rw [e1, e2]
  exact ⟨h.1, h.2.2⟩

/-- Counterexample for C4: `load_conversation` applies no cap, so loading a
file holding four few-shot examples leaves four in the state — the few-shot
set does exceed 3 entries after this operation. -/
theorem load_fewshot_exceeds_cap :
    (load_conversation
        { system_prompt := none
          few_shot_examples := some fourSavedExamples
          conversation_history := none } 0 emptyState).few_shot_examples.length
      = 4 := by decide

/-- Claim C4, amended: `add_few_shot_example` keeps the few-shot set at no
more than 3 entries whenever it held at most 3 before the insertion, and
inserting when exactly 3 are present evicts the oldest while preserving the
order of the remaining two; `load_conversation`, however, restores the saved
list verbatim without any cap. -/
theorem addFewShotExample_fifo (exs : List FewShotExample) (e : FewShotExample) :
    (exs.length ≤ 3 → (add_few_shot_example exs e).length ≤ 3) ∧
    (∀ a b c, exs = [a, b, c] → add_few_shot_example exs e = [b, c, e]) := by
  constructor
  · intro hle
    unfold add_few_shot_example
    by_cases h3 : exs.length ≥ 3
    · rw [if_pos h3]
      simp only [List.length_append, List.length_tail, List.length_cons,
        List.length_nil]
      omega
    · rw [if_neg h3]
      simp only [List.length_append, List.length_cons, List.length_nil]
      omega
  · intro a b c hexs
    subst hexs
    rfl

/-- Witness for C4: adding a fourth concrete example to three present ones
evicts the first and appends the new one at the end. -/
theorem addFewShotExample_fifo_witness :
    add_few_shot_example [fsEx 1, fsEx 2, fsEx 3] (fsEx 4) =
      [fsEx 2, fsEx 3, fsEx 4] ∧
    (add_few_shot_example [fsEx 1, fsEx 2, fsEx 3] (fsEx 4)).length ≤ 3 := by
  refine ⟨(addFewShotExample_fifo [fsEx 1, fsEx 2, fsEx 3] (fsEx 4)).2
    (fsEx 1) (fsEx 2) (fsEx 3) rfl,
    (addFewShotExample_fifo [fsEx 1, fsEx 2, fsEx 3] (fsEx 4)).1 (by decide)⟩

/-- Counterexample for C5: `response.raise_for_status()` raises only for 4xx
and 5xx codes, so a non-2xx response with status 304 and a well-formed body
raises no `TransportError` at all — `_call` returns the first choice's
content and `chat_once` appends both turns to the history. -/
theorem non2xx_304_not_transport :
    DeepSeekLLM_call (.ok 304 (some okBody)) = .ok "hi" ∧
    (chat_once emptyState (.ok 304 (some okBody)) "q" 0).1.conversation_history
      = [mkMessage "user" "q" 0, mkMessage "assistant" "hi" 0] := by
  exact ⟨rfl, by decide⟩

/-- Claim C5, amended: for every HTTP response whose status makes
`raise_for_status` raise (4xx/5xx — a 3xx status such as 304 slips through)
and for every connection failure, both the non-streaming `_call` and the
streaming `_stream` raise a transport error wrapping the underlying
failure, and `chat_once`/`chat_stream` leave the conversation state
untouched (neither the user turn nor any assistant message is appended). -/
theorem transport_errors_leave_history (st : ConversationState)
    (decode : String → Option Json) (input : String) (ts : Nat) :
    (∀ status, 400 ≤ status → status < 600 → ∀ body lines,
      DeepSeekLLM_call (.ok status body) = .error (.transport (.httpStatus status)) ∧
      DeepSeekLLM_stream decode (.ok status lines) =
        .error (.transport (.httpStatus status)) ∧
      chat_once st (.ok status body) input ts =
        (st, .error (.transport (.httpStatus status))) ∧
      chat_stream st decode (.ok status lines) input ts =
        (st, .error (.transport (.httpStatus status)))) ∧
    (∀ msg,
      DeepSeekLLM_call (.connError msg) = .error (.transport (.connection msg)) ∧
      DeepSeekLLM_stream decode (.connError msg) =
        .error (.transport (.connection msg)) ∧
      chat_once st (.connError msg) input ts =
        (st, .error (.transport (.connection msg))) ∧
      chat_stream st decode (.connError msg) input ts =
        (st, .error (.transport (.connection msg)))) := by
  constructor
  · intro status hlo hhi body lines
    have hs : statusRaises status = true := by
      simp only [statusRaises, Bool.and_eq_true, decide_eq_true_eq]
      omega
    refine ⟨?_, ?_, ?_, ?_⟩ <;>
      simp [DeepSeekLLM_call, DeepSeekLLM_stream, chat_once, chat_stream, hs]
  · intro msg
    exact ⟨rfl, rfl, rfl, rfl⟩

/-- Witness for C5 (amended): a 404 response and a concrete connection
failure both surface as transport errors and leave a concrete state
unchanged. -/
theorem transport_errors_leave_history_witness :
    chat_once emptyState (.ok 404 (some okBody)) "q" 3 =
      (emptyState, .error (.transport (.httpStatus 404))) ∧
    chat_stream emptyState decodeTwoDeltas (.connError "refused") "q" 3 =
      (emptyState, .error (.transport (.connection "refused"))) := by
  exact ⟨((transport_errors_leave_history emptyState decodeTwoDeltas "q" 3).1
      404 (by decide) (by decide) (some okBody) []).2.2.1,
    ((transport_errors_leave_history emptyState decodeTwoDeltas "q" 3).2
      "refused").2.2.2⟩

/-- Claim C6: loading the file produced by saving a conversation state
reconstructs the state exactly — system prompt, few-shot examples and
history, timestamps included — and a history record missing its timestamp
is normalized to the current time on load. -/
theorem load_save_roundtrip (st : ConversationState) (now : Nat) :
    load_conversation (save_conversation st) now st = st ∧
    (∀ role content, restoreMessage now
      { role := role, content := content, timestamp := none } =
        mkMessage role content now) := by
  constructor
  · cases st with
    | mk sp fs hist =>
      simp only [load_conversation, save_conversation, List.map_map]
      congr 1
      · exact List.map_id'' (fun _ => rfl) fs
      · exact List.map_id'' (fun _ => rfl) hist
  · intro role content
    rfl

/-- extractChunkLLM_deltaJson: the `_stream` extraction step yields a
non-empty delta content. -/
theorem extractChunkLLM_deltaJson (c : String) (hc : c ≠ "") :
    extractChunkLLM (deltaJson c) = some c := by
  simp [extractChunkLLM, deltaJson, Json.lookup, lookupField, hc]

/-- Counterexample for C7: a history entry whose role is "system" is among
the last 6 entries but is rendered as no line at all — the assembled prompt
for a one-entry system-role history contains an empty history section, with
no labeled line carrying the entry's content "X". -/
theorem system_role_entry_not_rendered :
    renderHistoryMsg (mkMessage "system" "X" 0) = [] ∧
    build_prompt_with_context "s" [] [mkMessage "system" "X" 0] "q" =
      "系统提示：\ns\n\n对话历史：\n\n现在请回答以下问题：\n用户：q\n助手：" := by
  exact ⟨rfl, by decide⟩

/-- Claim C7, amended: the context assembler includes only the last 6
history entries — dropping everything before them leaves the assembled
prompt unchanged — and renders each user- or assistant-role entry among
them as a labeled line in chronological order; entries with any other role
(such as "system") are omitted from the prompt. -/
theorem prompt_uses_last_six :
    (∀ sys fs (pre tl : List ChatMessage) input, tl.length = 6 →
      build_prompt_with_context sys fs (pre ++ tl) input =
        build_prompt_with_context sys fs tl input) ∧
    (∀ u a t1 t2,
      renderHistory [mkMessage "user" u t1, mkMessage "assistant" a t2] =
        ["用户：" ++ u, "助手：" ++ a]) := by
  constructor
  · intro sys fs pre tl input htl
    have htl_ne : tl ≠ [] := by
      intro h
      rw [h] at htl
      simp at htl
    have h1 : lastN 6 (pre ++ tl) = tl := by
      unfold lastN
      rw [List.length_append, htl]
      have h6 : pre.length + 6 - 6 = pre.length := by omega
      rw [h6, List.drop_left]
    have h2 : lastN 6 tl = tl := by
      unfold lastN
      rw [htl]
      simp
    have hpre_ne : pre ++ tl ≠ [] := by
      intro h
      exact htl_ne (List.append_eq_nil.mp h).2
    unfold build_prompt_with_context buildPromptParts
    rw [h1, h2, if_neg htl_ne, if_neg hpre_ne]
  · intro u a t1 t2
    rfl

/-- Witness for C7 (amended): prepending a seventh, older message to a
concrete six-message history does not change the assembled prompt. -/
theorem prompt_uses_last_six_witness :
    build_prompt_with_context "s" [] (mkMessage "user" "old" 0 :: sixMessages) "q" =
      build_prompt_with_context "s" [] sixMessages "q" := by
  have h := prompt_uses_last_six.1 "s" [] [mkMessage "user" "old" 0]
    sixMessages "q" (by decide)
  simpa using h

/-- Claim C8: for a successful (2xx) non-streaming response, an absent or
empty `choices` array makes `_call` fail with the no-response error (the
spec's `EmptyResponse`), and otherwise — when the first choice carries a
message content — `_call` returns that content. -/
theorem call_choices_contract (status : Nat) (j : Json)
    (hlo : 200 ≤ status) (hhi : status < 300) :
    ((j.lookup "choices" = none ∨ j.lookup "choices" = some (Json.arr [])) →
      DeepSeekLLM_call (.ok status (some j)) = .error (.apiError .noChoices)) ∧
    (∀ c cs m s, j.lookup "choices" = some (Json.arr (c :: cs)) →
      c.lookup "message" = some m → m.lookup "content" = some (Json.str s) →
      DeepSeekLLM_call (.ok status (some j)) = .ok s) := by
  have hs : statusRaises status = false := by
    unfold statusRaises
    have h4 : ¬ (400 ≤ status) := by omega
    simp [h4]
  constructor
  · rintro (hc | hc) <;> simp [DeepSeekLLM_call, hs, hc]
  · intro c cs m s hc hm hcont
    simp [DeepSeekLLM_call, hs, hc, hm, hcont]

/-- Witness for C8: a 200 response with body `{}` fails with the
no-response error; a 200 response with a well-formed single choice returns
its message content. -/
theorem call_choices_contract_witness :
    DeepSeekLLM_call (.ok 200 (some (Json.obj []))) = .error (.apiError .noChoices) ∧
    DeepSeekLLM_call (.ok 200 (some okBody)) = .ok "hi" := by
  refine ⟨(call_choices_contract 200 (Json.obj [])
      (by decide) (by decide)).1 (Or.inl rfl),
    (call_choices_contract 200 okBody (by decide) (by decide)).2
      (Json.obj [("message", Json.obj [("content", Json.str "hi")])]) []
      (Json.obj [("content", Json.str "hi")]) "hi" rfl rfl rfl⟩

/-- Claim C9: one unparseable data line interleaved between two valid delta
lines is skipped non-fatally by both streaming consumers — the decode
failure is absorbed by the `continue` branch and never surfaced — and both
valid fragments are still emitted in order. -/
theorem malformed_line_skipped (decode : String → Option Json)
    (s1 m s2 c1 c2 : String) (rest : List String)
    (h1 : decode s1 = some (deltaJson c1)) (hm : decode m = none)
    (h2 : decode s2 = some (deltaJson c2))
    (t1 : pyStrip s1 ≠ "[DONE]") (tm : pyStrip m ≠ "[DONE]")
    (t2 : pyStrip s2 ≠ "[DONE]")
    (n1 : c1 ≠ "") (n2 : c2 ≠ "") :
    chat_stream_chunks decode
        (("data: " ++ s1) :: ("data: " ++ m) :: ("data: " ++ s2) :: rest) =
      c1 :: c2 :: chat_stream_chunks decode rest ∧
    streamChunksLLM decode
        (("data: " ++ s1) :: ("data: " ++ m) :: ("data: " ++ s2) :: rest) =
      c1 :: c2 :: streamChunksLLM decode rest := by
  constructor
  · rw [chatStreamChunks_emit decode s1 c1 _ _ t1 h1 (extractChunkChat_deltaJson c1),
      chatStreamChunks_skip decode m _ tm hm,
      chatStreamChunks_emit decode s2 c2 _ _ t2 h2 (extractChunkChat_deltaJson c2)]
  · rw [streamChunksLLM_emit decode s1 c1 _ _ t1 h1 (extractChunkLLM_deltaJson c1 n1),
      streamChunksLLM_skip decode m _ tm hm,
      streamChunksLLM_emit decode s2 c2 _ _ t2 h2 (extractChunkLLM_deltaJson c2 n2)]

/-- Witness for C9: a concrete four-line sequence with the undecodable
payload "zz" between "j1" and "j2" still yields ["A", "B"] in both
consumers. -/
theorem malformed_line_skipped_witness :
    chat_stream_chunks decodeTwoDeltas
        ["data: j1", "data: zz", "data: j2", "data: [DONE]"] = ["A", "B"] ∧
    streamChunksLLM decodeTwoDeltas
        ["data: j1", "data: zz", "data: j2", "data: [DONE]"] = ["A", "B"] := by
  have e1 : ("data: j1" : String) = "data: " ++ "j1" := rfl
  have em : ("data: zz" : String) = "data: " ++ "zz" := rfl
  have e2 : ("data: j2" : String) = "data: " ++ "j2" := rfl
  have h := malformed_line_skipped decodeTwoDeltas "j1" "zz" "j2" "A" "B"
    ["data: [DONE]"] rfl rfl rfl (by decide) (by decide) (by decide)
    (by decide) (by decide)
  constructor
  · rw [e1, em, e2, h.1, chatStreamChunks_done]
  · rw [e1, em, e2, h.2, streamChunksLLM_done]

/-- Counterexample for C10: in `chat_stream` the guard is `'content' in
delta` rather than a truthiness test, so a delta whose content is the empty
string is emitted to the caller as an empty fragment. -/
theorem chat_stream_emits_empty_fragment :
    chat_stream_chunks decodeEmptyDelta ["data: e"] = [""] := by decide

/-- Claim C10, amended: `DeepSeekLLM._stream` extracts the delta of the
first choice and emits it only when non-empty — no empty fragment is ever
emitted by `_stream` — while `DeepSeekInteractiveChat.chat_stream` emits
the extracted content whenever the delta object carries a `content` key,
including when it is the empty string. -/
theorem stream_empty_fragment_policy :
    (∀ (decode : String → Option Json) (lines : List String) (c : String),
      c ∈ streamChunksLLM decode lines → c ≠ "") ∧
    (∀ (decode : String → Option Json) (s c : String) (rest : List String),
      decode s = some (deltaJson c) → pyStrip s ≠ "[DONE]" →
      chat_stream_chunks decode (("data: " ++ s) :: rest) =
        c :: chat_stream_chunks decode rest) := by
  constructor
  · intro decode lines
    induction lines with
    | nil =>
      intro c hc
      simp [streamChunksLLM] at hc
    | cons line rest ih =>
      intro c hc
      rw [streamChunksLLM] at hc
      split at hc
      · exact ih c hc
      · split at hc
        · split at hc
          · simp at hc
          · split at hc
            · exact ih c hc
            · split at hc
              · rename_i hc'
                rcases List.mem_cons.mp hc with rfl | hmem
                · exact extractChunkLLM_ne_empty _ c hc'
                · exact ih c hmem
              · exact ih c hc
        · exact ih c hc
  · intro decode s c rest hd ht
    exact chatStreamChunks_emit decode s c _ rest ht hd
      (extractChunkChat_deltaJson c)

/-- Witness for C10 (amended): a concrete delta line with content "x" is
emitted by `chat_stream`. -/
theorem stream_empty_fragment_policy_witness :
    chat_stream_chunks decodeXDelta ["data: j"] = ["x"] := by
  have e : ("data: j" : String) = "data: " ++ "j" := rfl
  have h := stream_empty_fragment_policy.2 decodeXDelta "j" "x" [] rfl (by decide)
  rw [e, h]
  rfl

end Buffett
